import Mathlib

/-!
Verification of the path-specifier resolver of `lapce-data/src/cli.rs`
(`PathObjectParser::parse_path` and `TypedValueParser::parse_ref`).

The resolver turns one command-line argument into a typed filesystem
reference: an existing directory, or an existing regular file optionally
annotated with a line / column position parsed from a `path:line:column`
or `path:line` suffix.  The filesystem is modelled as an oracle (`FS`)
supplying `canonicalize`, `is_file` and `is_dir`; the two suffix regexes
of the source are modelled as explicit greedy matchers over character
lists.
-/

set_option autoImplicit false

namespace LapceCli

/-- Modelled from the spec: the source type `crate::editor::LineCol` lives in
`editor.rs`, which is not part of this source tree; the spec describes it as a
`Position` of two unsigned integers, a line and a column, taken verbatim from
the parsed input, with the column defaulting to 1 when only a line is given. -/
structure LineCol where
  line : Nat
  column : Nat
deriving DecidableEq, Repr

/-- A platform path / OS string handed to the value parser.  A Rust `Path`
either converts to a UTF-8 `str` (`utf8`) or does not (`raw`, kept abstract by
an identifier); the grammar stages only ever see the `utf8` form, a `raw` path
is invisible to them.  A `raw` path is modelled as absolute, so the normalizer
passes it through unchanged. -/
inductive OsStr where
  | utf8 (s : String)
  | raw (id : Nat)
deriving DecidableEq, Repr

/-- `Path::to_str`: the UTF-8 view of the path, when it has one. -/
def OsStr.toStr : OsStr → Option String
  | .utf8 s => some s
  | .raw _ => none

/-- `OsStr::is_empty`.  The empty string is valid UTF-8, so a `raw` (non
UTF-8) path is never empty. -/
def OsStr.isEmpty : OsStr → Bool
  | .utf8 s => s.toList.isEmpty
  | .raw _ => false

/-- `Path::is_absolute`, Unix model: the path begins with a separator.  A
`raw` path is modelled as absolute (see `OsStr`). -/
def OsStr.isAbsolute : OsStr → Bool
  | .utf8 s =>
    match s.toList with
    | '/' :: _ => true
    | _ => false
  | .raw _ => true

/-- `PathBuf::join` of a relative path onto a base, Unix model: concatenation
with a single separator inserted when needed (an empty base adds no
separator). -/
def joinPath (base p : String) : String :=
  match base.toList.getLast? with
  | none => p
  | some ch => if ch = '/' then base ++ p else base ++ "/" ++ p

/-- The resolver result (source enum `PathObject`): an existing regular file
with an optional cursor position, or an existing directory.  The carried path
is the canonicalized one. -/
inductive PathObject where
  | File (path : OsStr) (pos : Option LineCol)
  | Directory (path : OsStr)
deriving DecidableEq, Repr

/-- The error kinds of the source enum `ParserError`.  The payloads keep the
offending fragments; the `ParseIntError` and `io::Error` details, which only
feed the rendered message text, are not modelled. -/
inductive ParserError where
  | InvalidPath
  | InvalidLine (line : String)
  | InvalidColumn (column : String)
  | InvalidLineColumn (line column : String)
  | NotFile (name : String)
  | NotFileOrDirectory
  | Other (path : String)
deriving DecidableEq, Repr

/-- A `clap::Error` as produced by this file: either a `ParserError` paired
with the `path_str` context handed to `PathObjectParser::error`, or the
`EmptyValue` error raised by `parse_ref` on an empty argument. -/
inductive CliError where
  | parse (e : ParserError) (pathStr : String)
  | emptyArg
deriving DecidableEq, Repr

/-- The filesystem oracle the resolver probes: `Path::canonicalize` (`none`
models an io error such as a missing entry), and the `is_file` / `is_dir`
checks applied to the canonicalized result. -/
structure FS where
  canon : OsStr → Option OsStr
  isFile : OsStr → Bool
  isDir : OsStr → Bool

/-- One numeric capture group of the suffix grammars: nonempty, all ASCII
digits.  (The source regexes write `\d`; digit characters outside ASCII are
not modelled.) -/
def isDigitStr (l : List Char) : Bool :=
  !l.isEmpty && l.all Char.isDigit

/-- The regex fragment `(\d+):(\d+)\z` against the remainder that follows the
path capture and its colon: the remainder must be a nonempty digit group, a
colon, and a nonempty digit group.  Digit groups cannot contain a colon, so
splitting at the first colon is exact. -/
def numPair (cs : List Char) : Option (List Char × List Char) :=
  match cs.span (fun ch => ch != ':') with
  | (l, ':' :: c) => if isDigitStr l && isDigitStr c then some (l, c) else none
  | _ => none

/-- Greedy search for the G1 decomposition of the newline-free suffix: the
path group `(.+)` is greedy, so the longest path capture is tried first, i.e.
split points are scanned right to left.  At fuel `k + 1` the candidate path is
the first `k + 1` characters. -/
def g1find (suf : List Char) : Nat → Option (List Char × List Char × List Char)
  | 0 => none
  | k + 1 =>
    match suf.drop (k + 1) with
    | ':' :: rest =>
      match numPair rest with
      | some (l, c) => some (suf.take (k + 1), l, c)
      | none => g1find suf k
    | _ => g1find suf k

/-- Greedy search for the G2 decomposition of the newline-free suffix: as in
`g1find`, but the remainder after the split colon must be a single digit group
reaching the end of the string. -/
def g2find (suf : List Char) : Nat → Option (List Char × List Char)
  | 0 => none
  | k + 1 =>
    match suf.drop (k + 1) with
    | ':' :: rest =>
      if isDigitStr rest then some (suf.take (k + 1), rest) else g2find suf k
    | _ => g2find suf k

/-- Splits a string at its last newline: `(pre, suf)` with the string being
`pre ++ suf` and `suf` newline-free.  The regex dot does not match a newline
and both grammars are anchored at the end of the string, so a match can only
live in `suf`; `pre` is kept because the source slices the reconstruction
candidate out of the full string by byte position. -/
def lastLineSplit (cs : List Char) : List Char × List Char :=
  let suf := (cs.reverse.takeWhile (fun ch => ch != '\n')).reverse
  (cs.take (cs.length - suf.length), suf)

/-- Capture groups of `REG_LINE_COLUMN`, the regex `(.+):(\d+):(\d+)\z`:
`(pre, path, line, column)` where `pre` is the part of the string before the
leftmost possible match start (everything up to and including the last
newline, usually empty) and `path`, `line`, `column` are the three capture
groups, the path capture greedy. -/
def matchG1 (s : String) : Option (String × String × String × String) :=
  let (pre, suf) := lastLineSplit s.toList
  match g1find suf suf.length with
  | some (p, l, c) => some (pre.asString, p.asString, l.asString, c.asString)
  | none => none

/-- Capture groups of `REG_LINE`, the regex `(.+):(\d+)\z`: `(pre, path,
line)`, as in `matchG1`. -/
def matchG2 (s : String) : Option (String × String × String) :=
  let (pre, suf) := lastLineSplit s.toList
  match g2find suf suf.length with
  | some (p, l) => some (pre.asString, p.asString, l.asString)
  | none => none

/-- `str::parse::<usize>` on a regex digit capture: the digits are read as a
number, which must fit in a 64 bit `usize` (a larger value is a parse error,
surfaced as `InvalidLine` / `InvalidColumn` by the caller). -/
def parseUsize (s : String) : Option Nat :=
  let cs := s.toList
  if isDigitStr cs then
    let n := cs.foldl (fun acc ch => acc * 10 + (ch.toNat - 48)) 0
    if n < 2 ^ 64 then some n else none
  else none

/-- Lines 139-172 of `cli.rs`: the line-only grammar G2 and the final
`NotFileOrDirectory` error.  When G2 matches, the line parses and the captured
path canonicalizes, the result is `File` or `NotFile`; when the captured path
does not canonicalize, control falls out of the `if let` to the
`NotFileOrDirectory` error, the same error returned when G2 does not match at
all. -/
def g2_stage (fs : FS) (s : String) : Except CliError PathObject :=
  match matchG2 s with
  | some (_pre, p, l) =>
    match parseUsize l with
    | some lineNum =>
      match fs.canon (.utf8 p) with
      | some leftPath =>
        if fs.isFile leftPath then
          .ok (.File leftPath (some { line := lineNum, column := 1 }))
        else
          .error (.parse (.NotFile p) s)
      | none => .error (.parse .NotFileOrDirectory s)
    | none => .error (.parse (.InvalidLine l) s)
  | none => .error (.parse .NotFileOrDirectory s)

/-- Lines 62-136 of `cli.rs`: the line+column grammar G1.  On a match both
groups are parsed; a parse failure is a terminal error.  If the captured path
canonicalizes, the result is `File` or `NotFile`.  If it does not, the source
reconstructs one candidate: the slice of `path_str` up to the colon before the
column group, that is `pre ++ path ++ ":" ++ line` (the line group collapsed
into the filename); if the candidate canonicalizes to a file, the column value
becomes the line number, otherwise the `Other` error is returned — control
never reaches G2 from a G1 match.  Only when G1 does not match is G2 tried. -/
def g1_stage (fs : FS) (s : String) : Except CliError PathObject :=
  match matchG1 s with
  | some (pre, p, l, c) =>
    match parseUsize l, parseUsize c with
    | some lineNum, some columnNum =>
      match fs.canon (.utf8 p) with
      | some leftPath =>
        if fs.isFile leftPath then
          .ok (.File leftPath (some { line := lineNum, column := columnNum }))
        else
          .error (.parse (.NotFile p) s)
      | none =>
        match fs.canon (.utf8 (pre ++ p ++ ":" ++ l)) with
        | some leftPath =>
          if fs.isFile leftPath then
            .ok (.File leftPath (some { line := columnNum, column := 1 }))
          else
            .error (.parse (.Other p) s)
        | none => .error (.parse (.Other p) s)
    | some _, none => .error (.parse (.InvalidColumn c) s)
    | none, some _ => .error (.parse (.InvalidLine l) s)
    | none, none => .error (.parse (.InvalidLineColumn l c) s)
  | none => g2_stage fs s

/-- Lines 38-173 of `cli.rs`, `PathObjectParser::parse_path`: probe the
argument verbatim first (an existing file or directory short-circuits; a
canonicalizable path that is neither falls through), then require a UTF-8 view
of the path, then run the suffix grammars. -/
def parse_path (fs : FS) (path : OsStr) : Except CliError PathObject :=
  let tail : Except CliError PathObject :=
    match path.toStr with
    | some s => g1_stage fs s
    | none => .error (.parse .InvalidPath "")
  match fs.canon path with
  | some pathBuf =>
    if fs.isFile pathBuf then .ok (.File pathBuf none)
    else if fs.isDir pathBuf then .ok (.Directory pathBuf)
    else tail
  | none => tail

/-- Lines 233-261 of `cli.rs`, `TypedValueParser::parse_ref`.  `cwd` is the
value `std::env::current_dir().unwrap_or_default()` produces at this call: the
source computes it inside the call body (a once-per-process `Lazy` static
appears only in commented-out form). -/
def parse_ref (fs : FS) (cwd : String) (value : OsStr) : Except CliError PathObject :=
  if value.isEmpty then .error .emptyArg
  else if value.isAbsolute then parse_path fs value
  else
    match value with
    | .utf8 s => parse_path fs (.utf8 (joinPath cwd s))
    | .raw i => parse_path fs (.raw i)

instance {ε α : Type} [DecidableEq ε] [DecidableEq α] : DecidableEq (Except ε α) := fun a b =>
  match a, b with
  | .ok a, .ok b =>
    if h : a = b then isTrue (by rw [h]) else isFalse (by intro hh; cases hh; exact h rfl)
  | .error a, .error b =>
    if h : a = b then isTrue (by rw [h]) else isFalse (by intro hh; cases hh; exact h rfl)
  | .ok _, .error _ => isFalse (by intro hh; cases hh)
  | .error _, .ok _ => isFalse (by intro hh; cases hh)

/-- A finite filesystem for concrete runs: the listed paths canonicalize to
themselves (everything else fails to canonicalize), the first list holds the
regular files, the second the directories. -/
def probeFS (files dirs : List OsStr) : FS where
  canon q := if q ∈ files ∨ q ∈ dirs then some q else none
  isFile q := decide (q ∈ files)
  isDir q := decide (q ∈ dirs)

/-- C4: an argument whose normalized string canonicalizes directly to an
existing regular file resolves to `File(canonical path, None)` with no
position, whatever else the filesystem holds — the direct probe of lines 48-54
always wins when the verbatim string exists. -/
theorem C4_direct_probe_wins (fs : FS) (arg pathBuf : OsStr)
    (hcanon : fs.canon arg = some pathBuf) (hfile : fs.isFile pathBuf = true) :
    parse_path fs arg = .ok (.File pathBuf none) := by
  simp [parse_path, hcanon, hfile]

/-- Witness for C4 at the example of the spec: a real file whose literal name is
`a:3:4` resolves verbatim, with no position. -/
theorem C4_direct_probe_wins_witness :
    (probeFS [.utf8 "/w/a:3:4"] []).canon (.utf8 "/w/a:3:4") = some (.utf8 "/w/a:3:4") ∧
    (probeFS [.utf8 "/w/a:3:4"] []).isFile (.utf8 "/w/a:3:4") = true ∧
    parse_path (probeFS [.utf8 "/w/a:3:4"] []) (.utf8 "/w/a:3:4")
      = .ok (.File (.utf8 "/w/a:3:4") none) :=
  ⟨by rfl, by rfl,
    C4_direct_probe_wins (probeFS [.utf8 "/w/a:3:4"] []) (.utf8 "/w/a:3:4")
      (.utf8 "/w/a:3:4") (by rfl) (by rfl)⟩

/-- C5: with an existing regular file `foo.txt` not shadowed by any
verbatim-named entry, `foo.txt:10:5` resolves under G1 to the file with
position line 10, column 5; `foo.txt:10` resolves under G2 to the file with
position line 10 and the column defaulting to 1. -/
theorem C5_position_grammars (fs : FS) (f : OsStr)
    (hshadow1 : fs.canon (.utf8 "/w/foo.txt:10:5") = none)
    (hshadow2 : fs.canon (.utf8 "/w/foo.txt:10") = none)
    (hfoo : fs.canon (.utf8 "/w/foo.txt") = some f)
    (hfile : fs.isFile f = true) :
    parse_path fs (.utf8 "/w/foo.txt:10:5")
        = .ok (.File f (some { line := 10, column := 5 })) ∧
    parse_path fs (.utf8 "/w/foo.txt:10")
        = .ok (.File f (some { line := 10, column := 1 })) := by
  have hm1 : matchG1 "/w/foo.txt:10:5" = some ("", "/w/foo.txt", "10", "5") := by rfl
  have hm2 : matchG1 "/w/foo.txt:10" = none := by rfl
  have hm3 : matchG2 "/w/foo.txt:10" = some ("", "/w/foo.txt", "10") := by rfl
  have hp10 : parseUsize "10" = some 10 := by rfl
  have hp5 : parseUsize "5" = some 5 := by rfl
  constructor
  · simp [parse_path, OsStr.toStr, hshadow1, g1_stage, hm1, hp10, hp5, hfoo, hfile]
  · simp [parse_path, OsStr.toStr, hshadow2, g1_stage, hm2, g2_stage, hm3, hp10, hfoo, hfile]

/-- Witness for C5 on a filesystem holding exactly the file `/w/foo.txt`. -/
theorem C5_position_grammars_witness :
    parse_path (probeFS [.utf8 "/w/foo.txt"] []) (.utf8 "/w/foo.txt:10:5")
        = .ok (.File (.utf8 "/w/foo.txt") (some { line := 10, column := 5 })) ∧
    parse_path (probeFS [.utf8 "/w/foo.txt"] []) (.utf8 "/w/foo.txt:10")
        = .ok (.File (.utf8 "/w/foo.txt") (some { line := 10, column := 1 })) :=
  C5_position_grammars (probeFS [.utf8 "/w/foo.txt"] []) (.utf8 "/w/foo.txt")
    (by rfl) (by rfl) (by rfl) (by rfl)

/-- Counterexample to C3 as stated: for `/p:2:7` with G1 captures path `/p`,
line `2`, column `7`, the candidate the claim reconstructs, `path:column_text`,
is `/p:7`; on a filesystem where `/p:7` is an existing regular file the claim
promises `File(/p:7, Some(line 7, column 1))`, but the source reconstructs
`path:line_text` = `/p:2` instead (line 91 slices up to the colon before the
column group), which does not exist, so it returns the `Other` error. -/
theorem C3_candidate_counterexample :
    matchG1 "/p:2:7" = some ("", "/p", "2", "7") ∧
    (probeFS [.utf8 "/p:7"] []).canon (.utf8 "/p:7") = some (.utf8 "/p:7") ∧
    (probeFS [.utf8 "/p:7"] []).isFile (.utf8 "/p:7") = true ∧
    parse_path (probeFS [.utf8 "/p:7"] []) (.utf8 "/p:2:7")
        = .error (.parse (.Other "/p") "/p:2:7") ∧
    parse_path (probeFS [.utf8 "/p:7"] []) (.utf8 "/p:2:7")
        ≠ .ok (.File (.utf8 "/p:7") (some { line := 7, column := 1 })) := by
  refine ⟨by rfl, by rfl, by rfl, by rfl, ?_⟩
  have h : parse_path (probeFS [.utf8 "/p:7"] []) (.utf8 "/p:2:7")
      = .error (.parse (.Other "/p") "/p:2:7") := by rfl
  rw [h]
  intro hh
  simp at hh

/-- C3 as amended: when G1 matches, both numeric groups parse and the captured
path fails to canonicalize, the resolver reconstructs exactly one candidate,
`path` + ":" + `line_text` (the slice of the argument up to the colon before
the column group); if that candidate canonicalizes to a regular file it
returns `File(candidate, Some(Position(line := column_value, column := 1)))`. -/
theorem C3_reconstruction_collapses_line_group (fs : FS)
    (s pre p l c : String) (lineNum columnNum : Nat) (leftPath : OsStr)
    (hprobe : fs.canon (.utf8 s) = none)
    (hm : matchG1 s = some (pre, p, l, c))
    (hl : parseUsize l = some lineNum)
    (hc : parseUsize c = some columnNum)
    (hpath : fs.canon (.utf8 p) = none)
    (hcand : fs.canon (.utf8 (pre ++ p ++ ":" ++ l)) = some leftPath)
    (hfile : fs.isFile leftPath = true) :
    parse_path fs (.utf8 s)
        = .ok (.File leftPath (some { line := columnNum, column := 1 })) := by
  simp [parse_path, OsStr.toStr, hprobe, g1_stage, hm, hl, hc, hpath, hcand, hfile]

/-- Witness for the amended C3: `/w/report:2024:7` on a filesystem holding the
file `/w/report:2024` resolves to that file at line 7, column 1. -/
theorem C3_reconstruction_collapses_line_group_witness :
    parse_path (probeFS [.utf8 "/w/report:2024"] []) (.utf8 "/w/report:2024:7")
        = .ok (.File (.utf8 "/w/report:2024") (some { line := 7, column := 1 })) :=
  C3_reconstruction_collapses_line_group (probeFS [.utf8 "/w/report:2024"] [])
    "/w/report:2024:7" "" "/w/report" "2024" "7" 2024 7 (.utf8 "/w/report:2024")
    (by rfl) (by rfl) (by rfl) (by rfl) (by rfl) (by rfl) (by rfl)

/-- Counterexample to C1 as stated: on the empty filesystem `/w/x:1:2`
matches G1 (captures `/w/x`, `1`, `2`), both groups parse, the captured path
and the reconstructed candidate both fail to canonicalize — yet the resolver
does not fall through to G2 on the original string: it returns the `Other`
error from line 106, while running the G2 stage on the same string would give
`NotFileOrDirectory`. -/
theorem C1_no_fallthrough_counterexample :
    matchG1 "/w/x:1:2" = some ("", "/w/x", "1", "2") ∧
    parse_path (probeFS [] []) (.utf8 "/w/x:1:2")
        = .error (.parse (.Other "/w/x") "/w/x:1:2") ∧
    g2_stage (probeFS [] []) "/w/x:1:2"
        = .error (.parse .NotFileOrDirectory "/w/x:1:2") ∧
    parse_path (probeFS [] []) (.utf8 "/w/x:1:2")
        ≠ g2_stage (probeFS [] []) "/w/x:1:2" := by
  refine ⟨by rfl, by rfl, by rfl, ?_⟩
  have h1 : parse_path (probeFS [] []) (.utf8 "/w/x:1:2")
      = .error (.parse (.Other "/w/x") "/w/x:1:2") := by rfl
  have h2 : g2_stage (probeFS [] []) "/w/x:1:2"
      = .error (.parse .NotFileOrDirectory "/w/x:1:2") := by rfl
  rw [h1, h2]
  intro hh
  simp at hh

/-- C1 as amended: when G1 matches structurally, both numeric groups parse,
the captured path fails to canonicalize and the reconstructed candidate (line
group collapsed into the filename) also fails to canonicalize to a regular
file, the resolver terminates right there with the `Other` error naming the
captured path — it never attempts G2 after a structural G1 match. -/
theorem C1_g1_reconstruction_failure_is_terminal (fs : FS)
    (s pre p l c : String) (lineNum columnNum : Nat)
    (hprobe : fs.canon (.utf8 s) = none)
    (hm : matchG1 s = some (pre, p, l, c))
    (hl : parseUsize l = some lineNum)
    (hc : parseUsize c = some columnNum)
    (hpath : fs.canon (.utf8 p) = none)
    (hcand : ∀ lp, fs.canon (.utf8 (pre ++ p ++ ":" ++ l)) = some lp →
      fs.isFile lp = false) :
    parse_path fs (.utf8 s) = .error (.parse (.Other p) s) := by
  rcases hx : fs.canon (.utf8 (pre ++ p ++ ":" ++ l)) with _ | lp
  · simp [parse_path, OsStr.toStr, hprobe, g1_stage, hm, hl, hc, hpath, hx]
  · simp [parse_path, OsStr.toStr, hprobe, g1_stage, hm, hl, hc, hpath, hx,
      hcand lp hx]

/-- Witness for the amended C1 on the empty filesystem. -/
theorem C1_g1_reconstruction_failure_is_terminal_witness :
    parse_path (probeFS [] []) (.utf8 "/w/x:1:2")
        = .error (.parse (.Other "/w/x") "/w/x:1:2") :=
  C1_g1_reconstruction_failure_is_terminal (probeFS [] []) "/w/x:1:2" "" "/w/x"
    "1" "2" 1 2 (by rfl) (by rfl) (by rfl) (by rfl) (by rfl)
    (fun lp h => by simp [probeFS] at h)

/-- Counterexample to C7 as stated: for `foo.txt:abc:5` on a filesystem where
nothing exists, the resolver does not return `InvalidLine` naming `abc`: the
G1 regex cannot capture `abc` as its digit-only line group at all, so G1 does
not match; G2 captures path `foo.txt:abc` with line `5`, the path fails to
canonicalize, and control falls to the `NotFileOrDirectory` error of line
172. -/
theorem C7_invalid_line_counterexample :
    matchG1 "/w/foo.txt:abc:5" = none ∧
    matchG2 "/w/foo.txt:abc:5" = some ("", "/w/foo.txt:abc", "5") ∧
    parse_path (probeFS [] []) (.utf8 "/w/foo.txt:abc:5")
        = .error (.parse .NotFileOrDirectory "/w/foo.txt:abc:5") ∧
    parse_path (probeFS [] []) (.utf8 "/w/foo.txt:abc:5")
        ≠ .error (.parse (.InvalidLine "abc") "/w/foo.txt:abc:5") := by
  refine ⟨by rfl, by rfl, by rfl, ?_⟩
  have h : parse_path (probeFS [] []) (.utf8 "/w/foo.txt:abc:5")
      = .error (.parse .NotFileOrDirectory "/w/foo.txt:abc:5") := by rfl
  rw [h]
  intro hh
  simp at hh

/-- C7 as amended: for `foo.txt:abc:5` where neither the verbatim string nor
`foo.txt:abc` canonicalizes, the resolver returns `NotFileOrDirectory`
(NoMatch) referencing the original normalized string; no `InvalidLine` error
can mention `abc`, because the digit-only grammars never capture it as a line
group. -/
theorem C7_nondigit_line_gives_no_match (fs : FS)
    (hprobe : fs.canon (.utf8 "/w/foo.txt:abc:5") = none)
    (hg2path : fs.canon (.utf8 "/w/foo.txt:abc") = none) :
    parse_path fs (.utf8 "/w/foo.txt:abc:5")
        = .error (.parse .NotFileOrDirectory "/w/foo.txt:abc:5") := by
  have hm1 : matchG1 "/w/foo.txt:abc:5" = none := by rfl
  have hm2 : matchG2 "/w/foo.txt:abc:5" = some ("", "/w/foo.txt:abc", "5") := by rfl
  have hp5 : parseUsize "5" = some 5 := by rfl
  simp [parse_path, OsStr.toStr, hprobe, g1_stage, hm1, g2_stage, hm2, hp5, hg2path]

/-- Witness for the amended C7 on the empty filesystem. -/
theorem C7_nondigit_line_gives_no_match_witness :
    parse_path (probeFS [] []) (.utf8 "/w/foo.txt:abc:5")
        = .error (.parse .NotFileOrDirectory "/w/foo.txt:abc:5") :=
  C7_nondigit_line_gives_no_match (probeFS [] []) (by rfl) (by rfl)

/-- Counterexample to C8 as stated: the source computes the working directory
inside every call (line 255; the once-per-process `Lazy` static is commented
out), so two resolutions of the same relative argument `f` under different
current directories join against different bases and return different files —
the claim that the same base is reused is false. -/
theorem C8_cached_cwd_counterexample :
    parse_ref (probeFS [.utf8 "/a/f", .utf8 "/b/f"] []) "/a" (.utf8 "f")
        = .ok (.File (.utf8 "/a/f") none) ∧
    parse_ref (probeFS [.utf8 "/a/f", .utf8 "/b/f"] []) "/b" (.utf8 "f")
        = .ok (.File (.utf8 "/b/f") none) ∧
    parse_ref (probeFS [.utf8 "/a/f", .utf8 "/b/f"] []) "/a" (.utf8 "f")
        ≠ parse_ref (probeFS [.utf8 "/a/f", .utf8 "/b/f"] []) "/b" (.utf8 "f") := by
  refine ⟨by rfl, by rfl, ?_⟩
  have h1 : parse_ref (probeFS [.utf8 "/a/f", .utf8 "/b/f"] []) "/a" (.utf8 "f")
      = .ok (.File (.utf8 "/a/f") none) := by rfl
  have h2 : parse_ref (probeFS [.utf8 "/a/f", .utf8 "/b/f"] []) "/b" (.utf8 "f")
      = .ok (.File (.utf8 "/b/f") none) := by rfl
  rw [h1, h2]
  intro hh
  simp at hh

/-- C8 as amended: the working directory is read afresh at each call, so a
relative argument is joined onto whatever base is current at that call; two
resolutions of the same relative argument under different working directories
probe the two different joined paths and, when those name distinct files,
return distinct results. -/
theorem C8_cwd_read_at_each_call (fs : FS) (b1 b2 s : String) (f1 f2 : OsStr)
    (hne : s.toList ≠ [])
    (hrel : OsStr.isAbsolute (.utf8 s) = false)
    (h1 : fs.canon (.utf8 (joinPath b1 s)) = some f1)
    (hf1 : fs.isFile f1 = true)
    (h2 : fs.canon (.utf8 (joinPath b2 s)) = some f2)
    (hf2 : fs.isFile f2 = true)
    (hdiff : f1 ≠ f2) :
    parse_ref fs b1 (.utf8 s) = .ok (.File f1 none) ∧
    parse_ref fs b2 (.utf8 s) = .ok (.File f2 none) ∧
    parse_ref fs b1 (.utf8 s) ≠ parse_ref fs b2 (.utf8 s) := by
  have hne2 : ¬ s.data = [] := hne
  have e1 : parse_ref fs b1 (.utf8 s) = .ok (.File f1 none) := by
    simp [parse_ref, OsStr.isEmpty, hne2, hrel, parse_path, h1, hf1]
  have e2 : parse_ref fs b2 (.utf8 s) = .ok (.File f2 none) := by
    simp [parse_ref, OsStr.isEmpty, hne2, hrel, parse_path, h2, hf2]
  refine ⟨e1, e2, ?_⟩
  rw [e1, e2]
  intro hh
  simp at hh
  exact hdiff hh

/-- Witness for the amended C8: the same relative `f` resolves to `/a/f`
under base `/a` and to `/b/f` under base `/b`. -/
theorem C8_cwd_read_at_each_call_witness :
    parse_ref (probeFS [.utf8 "/a/f", .utf8 "/b/f"] []) "/a" (.utf8 "f")
        = .ok (.File (.utf8 "/a/f") none) ∧
    parse_ref (probeFS [.utf8 "/a/f", .utf8 "/b/f"] []) "/b" (.utf8 "f")
        = .ok (.File (.utf8 "/b/f") none) ∧
    parse_ref (probeFS [.utf8 "/a/f", .utf8 "/b/f"] []) "/a" (.utf8 "f")
        ≠ parse_ref (probeFS [.utf8 "/a/f", .utf8 "/b/f"] []) "/b" (.utf8 "f") :=
  C8_cwd_read_at_each_call (probeFS [.utf8 "/a/f", .utf8 "/b/f"] []) "/a" "/b" "f"
    (.utf8 "/a/f") (.utf8 "/b/f") (by simp) (by rfl) (by rfl) (by rfl) (by rfl)
    (by rfl) (by simp)

/-- C6: whenever the captured path of a grammar match canonicalizes but the result
is not a regular file, the resolver returns the `NotFile` error as a terminal
result and does not fall back to the next grammar — stated for a G1 match
(first conjunct) and for a G2 match reached because G1 did not match (second
conjunct). -/
theorem C6_not_a_file_is_terminal :
    (∀ (fs : FS) (s pre p l c : String) (lineNum columnNum : Nat) (leftPath : OsStr),
      fs.canon (.utf8 s) = none →
      matchG1 s = some (pre, p, l, c) →
      parseUsize l = some lineNum →
      parseUsize c = some columnNum →
      fs.canon (.utf8 p) = some leftPath →
      fs.isFile leftPath = false →
      parse_path fs (.utf8 s) = .error (.parse (.NotFile p) s)) ∧
    (∀ (fs : FS) (s pre p l : String) (lineNum : Nat) (leftPath : OsStr),
      fs.canon (.utf8 s) = none →
      matchG1 s = none →
      matchG2 s = some (pre, p, l) →
      parseUsize l = some lineNum →
      fs.canon (.utf8 p) = some leftPath →
      fs.isFile leftPath = false →
      parse_path fs (.utf8 s) = .error (.parse (.NotFile p) s)) := by
  constructor
  · intro fs s pre p l c lineNum columnNum leftPath hprobe hm hl hc hpath hfile
    simp [parse_path, OsStr.toStr, hprobe, g1_stage, hm, hl, hc, hpath, hfile]
  · intro fs s pre p l lineNum leftPath hprobe hm1 hm2 hl hpath hfile
    simp [parse_path, OsStr.toStr, hprobe, g1_stage, hm1, g2_stage, hm2, hl,
      hpath, hfile]

/-- Witness for C6 at the example of the spec: with `src` an existing directory,
`src:1:1` gives `NotFile` under G1 and `src:1` gives `NotFile` under G2. -/
theorem C6_not_a_file_is_terminal_witness :
    parse_path (probeFS [] [.utf8 "/w/src"]) (.utf8 "/w/src:1:1")
        = .error (.parse (.NotFile "/w/src") "/w/src:1:1") ∧
    parse_path (probeFS [] [.utf8 "/w/src"]) (.utf8 "/w/src:1")
        = .error (.parse (.NotFile "/w/src") "/w/src:1") :=
  ⟨C6_not_a_file_is_terminal.1 (probeFS [] [.utf8 "/w/src"]) "/w/src:1:1" ""
      "/w/src" "1" "1" 1 1 (.utf8 "/w/src") (by rfl) (by rfl) (by rfl) (by rfl)
      (by rfl) (by rfl),
    C6_not_a_file_is_terminal.2 (probeFS [] [.utf8 "/w/src"]) "/w/src:1" ""
      "/w/src" "1" 1 (.utf8 "/w/src") (by rfl) (by rfl) (by rfl) (by rfl)
      (by rfl) (by rfl)⟩

/-- Inversion for the G2 stage: a successful result is always a `File` whose
carried path passed the `is_file` check and is an output of canonicalization. -/
theorem g2_stage_ok_inv (fs : FS) (s : String) (r : PathObject)
    (h : g2_stage fs s = .ok r) :
    ∃ p pos, r = .File p pos ∧ fs.isFile p = true ∧ ∃ q, fs.canon q = some p := by
  unfold g2_stage at h
  rcases hm : matchG2 s with _ | ⟨pre, p, l⟩ <;> rw [hm] at h <;> dsimp only at h
  · simp at h
  · rcases hl : parseUsize l with _ | lineNum <;> rw [hl] at h <;> dsimp only at h
    · simp at h
    · rcases hc : fs.canon (.utf8 p) with _ | leftPath <;> rw [hc] at h <;>
        dsimp only at h
      · simp at h
      · split at h
        · rename_i hf
          simp at h
          exact ⟨leftPath, _, h.symm, hf, ⟨_, hc⟩⟩
        · simp at h

/-- Inversion for the G1 stage, as in `g2_stage_ok_inv`. -/
theorem g1_stage_ok_inv (fs : FS) (s : String) (r : PathObject)
    (h : g1_stage fs s = .ok r) :
    ∃ p pos, r = .File p pos ∧ fs.isFile p = true ∧ ∃ q, fs.canon q = some p := by
  unfold g1_stage at h
  rcases hm : matchG1 s with _ | ⟨pre, p, l, c⟩ <;> rw [hm] at h <;> dsimp only at h
  · exact g2_stage_ok_inv fs s r h
  · rcases hl : parseUsize l with _ | lineNum <;>
      rcases hc : parseUsize c with _ | columnNum <;> rw [hl, hc] at h <;>
      dsimp only at h
    · simp at h
    · simp at h
    · simp at h
    · rcases hcp : fs.canon (.utf8 p) with _ | leftPath <;> rw [hcp] at h <;>
        dsimp only at h
      · rcases hcand : fs.canon (.utf8 (pre ++ p ++ ":" ++ l)) with _ | lp <;>
          rw [hcand] at h <;> dsimp only at h
        · simp at h
        · split at h
          · rename_i hf
            simp at h
            exact ⟨lp, _, h.symm, hf, ⟨_, hcand⟩⟩
          · simp at h
      · split at h
        · rename_i hf
          simp at h
          exact ⟨leftPath, _, h.symm, hf, ⟨_, hcp⟩⟩
        · simp at h

/-- C9: whenever the resolver returns successfully, a `File` result carries a
path that the filesystem, at resolution time, reported as a regular file and
produced as a canonicalization output, and a `Directory` result carries the
canonicalization of the argument itself, reported as a directory. -/
theorem C9_success_is_confirmed_on_fs (fs : FS) (arg : OsStr) (r : PathObject)
    (h : parse_path fs arg = .ok r) :
    (∃ p pos, r = .File p pos ∧ fs.isFile p = true ∧ ∃ q, fs.canon q = some p) ∨
    (∃ p, r = .Directory p ∧ fs.isDir p = true ∧ fs.canon arg = some p) := by
  unfold parse_path at h
  rcases hc : fs.canon arg with _ | pathBuf <;> rw [hc] at h <;> dsimp only at h
  · rcases hs : arg.toStr with _ | s <;> rw [hs] at h <;> dsimp only at h
    · simp at h
    · exact .inl (g1_stage_ok_inv fs s r h)
  · split at h
    · rename_i hf
      simp at h
      exact .inl ⟨pathBuf, none, h.symm, hf, ⟨arg, hc⟩⟩
    · split at h
      · rename_i hd
        simp at h
        exact .inr ⟨pathBuf, h.symm, hd, rfl⟩
      · rcases hs : arg.toStr with _ | s <;> rw [hs] at h <;> dsimp only at h
        · simp at h
        · exact .inl (g1_stage_ok_inv fs s r h)

/-- Witness for C9 at a concrete successful resolution. -/
theorem C9_success_is_confirmed_on_fs_witness :
    (∃ p pos, (PathObject.File (.utf8 "/w/foo.txt") none : PathObject) = .File p pos ∧
      (probeFS [.utf8 "/w/foo.txt"] []).isFile p = true ∧
      ∃ q, (probeFS [.utf8 "/w/foo.txt"] []).canon q = some p) ∨
    (∃ p, (PathObject.File (.utf8 "/w/foo.txt") none : PathObject) = .Directory p ∧
      (probeFS [.utf8 "/w/foo.txt"] []).isDir p = true ∧
      (probeFS [.utf8 "/w/foo.txt"] []).canon (.utf8 "/w/foo.txt") = some p) :=
  C9_success_is_confirmed_on_fs (probeFS [.utf8 "/w/foo.txt"] [])
    (.utf8 "/w/foo.txt") (.File (.utf8 "/w/foo.txt") none) (by rfl)

/-- C10: a non-UTF-8 argument (necessarily non-empty) that does not directly
canonicalize to an existing file or directory is rejected with the bare
`InvalidPath` error — an error kind outside the catalogue of the spec — before any
suffix grammar or ambiguity reconstruction is consulted (the result does not
depend on any further filesystem state). -/
theorem C10_non_utf8_rejected_invalid_path (fs : FS) (cwd : String) (i : Nat)
    (hprobe : ∀ pb, fs.canon (.raw i) = some pb →
      fs.isFile pb = false ∧ fs.isDir pb = false) :
    (OsStr.raw i).isEmpty = false ∧
    parse_ref fs cwd (.raw i) = .error (.parse .InvalidPath "") := by
  refine ⟨by rfl, ?_⟩
  have hpp : parse_path fs (.raw i) = .error (.parse .InvalidPath "") := by
    rcases hc : fs.canon (.raw i) with _ | pb
    · simp [parse_path, hc, OsStr.toStr]
    · obtain ⟨hf, hd⟩ := hprobe pb hc
      simp [parse_path, hc, hf, hd, OsStr.toStr]
  simpa [parse_ref, OsStr.isEmpty, OsStr.isAbsolute] using hpp

/-- Witness for C10 on the empty filesystem. -/
theorem C10_non_utf8_rejected_invalid_path_witness :
    (OsStr.raw 0).isEmpty = false ∧
    parse_ref (probeFS [] []) "/w" (.raw 0) = .error (.parse .InvalidPath "") :=
  C10_non_utf8_rejected_invalid_path (probeFS [] []) "/w" 0
    (fun pb h => by simp [probeFS] at h)

end LapceCli
